import Mathlib

/-!
Shallow embedding of the HazardX backend (src/app.py) and verification of its
specification claims.

Modelling conventions:
* Timestamps are integers.  The source stores ISO-8601 strings produced by
  datetime.utcnow().isoformat() and compares them with the Mongo $gte string
  comparison; on such strings the lexicographic order agrees with chronological
  order, so an order-isomorphic integer timeline (in minutes, matching the
  unit of the configured cooldowns) is a faithful embedding.
* Python dict .get(key, default) lookups become dictGetD over association
  lists.
* Python truthiness of an optional string (None or "" are falsy) becomes
  pyFalsy / pyTruthy below.
* The Mongo collections become Lean lists kept in insertion order; the
  monotonically increasing Mongo _id becomes an oid : Nat field.
* The Twilio client becomes an explicit gateway function
  gw : String -> GwOutcome; a call either returns an accepted message (sid and
  status) or raises a transport error, exactly the two behaviours the source
  handles.
-/

/-- dictGetD models Python dict.get(key, default) over an association list. -/
def dictGetD {κ ν : Type} [DecidableEq κ] (d : List (κ × ν)) (key : κ) (dflt : ν) : ν :=
  match d.find? (fun kv => kv.1 = key) with
  | some kv => kv.2
  | none => dflt

/-- pyFalsy models Python truthiness of data.get(field): None or "" is falsy. -/
def pyFalsy (o : Option String) : Bool :=
  match o with
  | none => true
  | some s => s = ""

/-- pyTruthyOpt models Python truthiness of a variable that is None or a string. -/
def pyTruthyOpt (o : Option String) : Bool :=
  match o with
  | none => false
  | some s => s ≠ ""

/-- hasSub pat l decides whether the character list pat occurs contiguously
inside the character list l. -/
def hasSub (pat : List Char) : List Char → Bool
  | [] => pat.isEmpty
  | c :: rest => List.isPrefixOf pat (c :: rest) || hasSub pat rest

/-- containsSubstr s pat decides whether pat occurs inside s (Python
"pat in s"), by scanning the underlying character lists. -/
def containsSubstr (s pat : String) : Bool :=
  hasSub pat.data s.data

/-- zfill models Python str.zfill(w): left-pad a string with zeros to width w. -/
def zfill (w : Nat) (s : String) : String :=
  if s.length ≥ w then s else String.mk (List.replicate (w - s.length) '0') ++ s

/-! ## SMS cooldown configuration and tracker (src/app.py lines 41-120) -/

/-- SMS_COOLDOWN_MINUTES from src/app.py lines 41-48: minimum minutes between
same-type SMS. -/
def SMS_COOLDOWN_MINUTES : List (String × Int) :=
  [("FLOOD", 30), ("FIRE", 20), ("AIR", 60), ("RAIN", 30), ("RISK_HIGH", 15), ("MANUAL", 0)]

/-- SmsRecord models one document of the sms_log collection, as written by
_log_sms (src/app.py lines 123-131). -/
structure SmsRecord where
  alert_type : String
  message : String
  recipients : List String
  twilio_sid : String
  sent_at : Int
deriving DecidableEq, Repr

/-- is_on_cooldown embeds _is_on_cooldown (src/app.py lines 111-120): cooldown
minutes from SMS_COOLDOWN_MINUTES with default 30; zero cooldown is never
suppressed; otherwise suppressed iff some log record of the same alert_type has
sent_at at or after now minus the cooldown. -/
def is_on_cooldown (log : List SmsRecord) (alert_type : String) (now : Int) : Bool :=
  let cooldown_mins := dictGetD SMS_COOLDOWN_MINUTES alert_type 30
  if cooldown_mins = 0 then false
  else
    let cutoff := now - cooldown_mins
    log.any (fun r => decide (r.alert_type = alert_type) && decide (cutoff ≤ r.sent_at))

/-! ## SMS dispatch (src/app.py lines 134-171) -/

/-- GwOutcome models one Twilio messages.create call for one recipient: either
the gateway accepts and returns a message (sid, status), or the call raises a
transport error. -/
inductive GwOutcome where
  | accepted (sid : String) (status : String)
  | raised (err : String)
deriving DecidableEq, Repr

/-- isAcceptedB is true when the gateway call returned (did not raise). -/
def isAcceptedB (o : GwOutcome) : Bool :=
  match o with
  | .accepted _ _ => true
  | .raised _ => false

/-- ALERT_RECIPIENTS from src/app.py lines 30-33 with the environment defaults:
a single placeholder number. -/
def ALERT_RECIPIENTS : List String := ["+91XXXXXXXXXX"]

/-- skip_number models the per-recipient skip condition of send_sms_alert
(src/app.py line 151): not number or "XXXXXXXXXX" in number. -/
def skip_number (n : String) : Bool :=
  n = "" || containsSubstr n "XXXXXXXXXX"

/-- valid_recipients is the sublist of recipients that the dispatch loop does
not skip. -/
def valid_recipients (l : List String) : List String :=
  l.filter (fun n => !skip_number n)

/-- SendEntry models one element of the results list built by send_sms_alert.
The to field of the source dict is named to_number here because to is a Lean
keyword. -/
structure SendEntry where
  to_number : String
  sid : String
  status : String
deriving DecidableEq, Repr

/-- LoopResult models the outcome of the recipient loop of send_sms_alert:
either the whole loop completed (results list and last successful sid), or some
gateway call raised and the exception escaped the loop. -/
inductive LoopResult where
  | completed (results : List SendEntry) (last_sid : Option String)
  | raised (err : String)
deriving DecidableEq, Repr

/-- sms_loop embeds the for-loop of send_sms_alert (src/app.py lines 150-161),
returning the loop outcome together with the list of recipients for which the
gateway was actually called (the delivery attempts, in order).  A raised
transport error aborts the loop: the source wraps the whole loop in one
try/except, so later recipients are not attempted. -/
def sms_loop (gw : String → GwOutcome) : List String → LoopResult × List String
  | [] => (.completed [] none, [])
  | n :: rest =>
    if skip_number n then sms_loop gw rest
    else
      match gw n with
      | .raised e => (.raised e, [n])
      | .accepted sid status =>
        match sms_loop gw rest with
        | (.raised e, att) => (.raised e, n :: att)
        | (.completed results lsid, att) =>
          (.completed (⟨n, sid, status⟩ :: results) (some (lsid.getD sid)), n :: att)

/-- SmsResult models the dict returned by send_sms_alert. -/
inductive SmsResult where
  | sentTrue (count : Nat) (results : List SendEntry)
  | sentFalse (reason : String)
deriving DecidableEq, Repr

/-- SendOutcome bundles the observable effects of one send_sms_alert call:
the returned dict, the recipients attempted at the gateway, and the record
appended to sms_log (if any). -/
structure SendOutcome where
  result : SmsResult
  attempts : List String
  logged : Option SmsRecord
deriving DecidableEq, Repr

/-- send_sms_alert embeds send_sms_alert (src/app.py lines 134-171):
default recipients when none are given; early cooldown exit without any gateway
call or log write; otherwise run the recipient loop; on a raised transport
error return the error text without logging; on completion, log and report
success iff the last sid is truthy, else report "no valid recipients". -/
def send_sms_alert (log : List SmsRecord) (gw : String → GwOutcome)
    (alert_type message : String) (recipients : Option (List String)) (now : Int) :
    SendOutcome :=
  let recips := match recipients with
    | none => ALERT_RECIPIENTS
    | some r => r
  if is_on_cooldown log alert_type now then
    ⟨.sentFalse "cooldown", [], none⟩
  else
    match sms_loop gw recips with
    | (.raised e, att) => ⟨.sentFalse e, att, none⟩
    | (.completed results lsid, att) =>
      if pyTruthyOpt lsid then
        ⟨.sentTrue results.length results, att,
          some ⟨alert_type, message, recips, lsid.getD "", now⟩⟩
      else
        ⟨.sentFalse "no valid recipients", att, none⟩

/-- attemptedPrefix gw l is the prefix of the (already filtered) recipient list
that actually receives a gateway call: everything up to and including the first
recipient whose call raises. -/
def attemptedPrefix (gw : String → GwOutcome) : List String → List String
  | [] => []
  | n :: rest =>
    n :: (match gw n with
      | .raised _ => []
      | .accepted _ _ => attemptedPrefix gw rest)

/-- loop_entries gw l is the results list the loop builds when no call raises. -/
def loop_entries (gw : String → GwOutcome) (l : List String) : List SendEntry :=
  l.map (fun n => match gw n with
    | .accepted s st => ⟨n, s, st⟩
    | .raised _ => ⟨n, "", ""⟩)

/-- last_accepted_sid gw l is the sid of the last gateway call in l, assuming
every call in l is accepted. -/
def last_accepted_sid (gw : String → GwOutcome) (l : List String) : Option String :=
  (l.map (fun n => match gw n with
    | .accepted s _ => s
    | .raised _ => "")).getLast?

/-! ## Sensor thresholds and the auto SMS trigger (src/app.py lines 53-59, 177-269) -/

/-- THRESHOLDS from src/app.py lines 53-59: per signal, the warn and critical
cutoffs, as an association list signal -> [(kind, cutoff)]. -/
def THRESHOLDS : List (String × List (String × Int)) :=
  [("distance",      [("warn", 100), ("critical", 50)]),
   ("rain_level",    [("warn", 70),  ("critical", 90)]),
   ("air_quality",   [("warn", 150), ("critical", 250)]),
   ("temperature",   [("warn", 40),  ("critical", 45)]),
   ("soil_moisture", [("warn", 80),  ("critical", 95)])]

/-- thr models the double indexing THRESHOLDS[sig][kind] of the source. -/
def thr (sig kind : String) : Int :=
  dictGetD (dictGetD THRESHOLDS sig []) kind 0

/-- Tier records which branch of an if/elif threshold pair produced an SMS
call: the critical branch or the warn branch.  The RISK_HIGH catch-all carries
CRITICAL as a nominal tier (the source attaches no tier to it). -/
inductive Tier where
  | WARN
  | CRITICAL
deriving DecidableEq, Repr

/-- SmsCall records one invocation of send_sms_alert made by
check_and_send_sensor_sms: the alert type, the branch that fired, and the
rendered message body. -/
structure SmsCall where
  alert_type : String
  tier : Tier
  message : String
deriving DecidableEq, Repr

/-- SensorData models the fields of the incoming reading that
check_and_send_sensor_sms consults; absent fields are None. -/
structure SensorData where
  distance : Option Int
  rain_level : Option Int
  air_quality : Option Int
  temperature : Option Int
  timestamp : Option String
deriving DecidableEq, Repr

/-- flood_calls embeds the flood / water level block (src/app.py lines
190-205): critical first, then warn, on the distance signal with the
lower-is-worse direction. -/
def flood_calls (distance : Int) (ts_fmt : String) : List SmsCall :=
  if distance ≤ thr "distance" "critical" then
    [⟨"FLOOD", .CRITICAL,
      "MHEWS CRITICAL FLOOD ALERT\nWater sensor: " ++ toString distance ++
      "cm (DANGER LEVEL)\nImmediate evacuation may be required.\nTime: " ++ ts_fmt⟩]
  else if distance ≤ thr "distance" "warn" then
    [⟨"FLOOD", .WARN,
      "MHEWS Flood Warning\nWater rising. Distance: " ++ toString distance ++
      "cm.\nMonitor closely and prepare to evacuate.\nTime: " ++ ts_fmt⟩]
  else []

/-- rain_calls embeds the heavy rain block (src/app.py lines 208-223). -/
def rain_calls (rain : Int) (ts_fmt : String) : List SmsCall :=
  if rain ≥ thr "rain_level" "critical" then
    [⟨"RAIN", .CRITICAL,
      "MHEWS Heavy Rain CRITICAL\nRain sensor: " ++ toString rain ++
      "/100\nFlash flood risk. Move to higher ground.\nTime: " ++ ts_fmt⟩]
  else if rain ≥ thr "rain_level" "warn" then
    [⟨"RAIN", .WARN,
      "MHEWS Rain Advisory\nRain intensity: " ++ toString rain ++
      "/100 (HIGH)\nAvoid low-lying areas.\nTime: " ++ ts_fmt⟩]
  else []

/-- air_calls embeds the air quality block (src/app.py lines 226-241). -/
def air_calls (air : Int) (ts_fmt : String) : List SmsCall :=
  if air ≥ thr "air_quality" "critical" then
    [⟨"AIR", .CRITICAL,
      "MHEWS Air Quality CRITICAL\nAQI: " ++ toString air ++
      " PPM — Hazardous.\nStay indoors. Wear masks immediately.\nTime: " ++ ts_fmt⟩]
  else if air ≥ thr "air_quality" "warn" then
    [⟨"AIR", .WARN,
      "MHEWS Air Quality Warning\nAQI: " ++ toString air ++
      " PPM — Unhealthy.\nLimit outdoor exposure.\nTime: " ++ ts_fmt⟩]
  else []

/-- fire_calls embeds the temperature / fire risk block (src/app.py lines
244-259). -/
def fire_calls (temperature : Int) (ts_fmt : String) : List SmsCall :=
  if temperature ≥ thr "temperature" "critical" then
    [⟨"FIRE", .CRITICAL,
      "MHEWS Extreme Heat / Fire Risk\nTemperature: " ++ toString temperature ++
      "C (CRITICAL)\nExtreme fire danger conditions.\nTime: " ++ ts_fmt⟩]
  else if temperature ≥ thr "temperature" "warn" then
    [⟨"FIRE", .WARN,
      "MHEWS Heat Warning\nTemperature: " ++ toString temperature ++
      "C (HIGH)\nHigh fire risk. Stay alert.\nTime: " ++ ts_fmt⟩]
  else []

/-- risk_calls embeds the ML model HIGH risk catch-all (src/app.py lines
262-269). -/
def risk_calls (risk : String) (temperature rain distance air : Int)
    (ts_fmt : String) : List SmsCall :=
  if risk = "HIGH" then
    [⟨"RISK_HIGH", .CRITICAL,
      "MHEWS SYSTEM ALERT — HIGH RISK\nML model predicts HIGH hazard risk.\nTemp:" ++
      toString temperature ++ "C Rain:" ++ toString rain ++ " Water:" ++
      toString distance ++ "cm AQI:" ++ toString air ++ "\nTime: " ++ ts_fmt⟩]
  else []

/-- check_and_send_sensor_sms embeds the candidate-emission structure of
check_and_send_sensor_sms (src/app.py lines 177-269): defaults distance 999 and
0 for the other signals, renders the timestamp, and concatenates the five
blocks in source order.  The value is the ordered list of send_sms_alert
invocations the source makes. -/
def check_and_send_sensor_sms (data : SensorData) (risk : String)
    (now_iso : String) : List SmsCall :=
  let distance := data.distance.getD 999
  let rain := data.rain_level.getD 0
  let air := data.air_quality.getD 0
  let temperature := data.temperature.getD 0
  let ts := data.timestamp.getD now_iso
  let ts_fmt := (ts.take 19).replace "T" " " ++ " UTC"
  flood_calls distance ts_fmt ++ rain_calls rain ts_fmt ++ air_calls air ts_fmt ++
    fire_calls temperature ts_fmt ++ risk_calls risk temperature rain distance air ts_fmt

/-! ## Weekly risk aggregation (src/app.py lines 354-396) -/

/-- RISK_SCORE_MAP from src/app.py line 354. -/
def RISK_SCORE_MAP : List (String × Int) :=
  [("LOW", 1), ("MEDIUM", 2), ("HIGH", 3), ("UNKNOWN", 0)]

/-- RISK_LABEL_MAP from src/app.py line 355. -/
def RISK_LABEL_MAP : List (Int × String) :=
  [(1, "LOW"), (2, "MEDIUM"), (3, "HIGH"), (0, "UNKNOWN")]

/-- pyRound models the Python built-in round on an exact rational: round half
to even (banker rounding), as an integer. -/
def pyRound (q : ℚ) : ℤ :=
  let f := ⌊q⌋
  let frac := q - f
  if frac < 1/2 then f
  else if 1/2 < frac then f + 1
  else if f % 2 = 0 then f else f + 1

/-- roundTo2 models Python round(x, 2) on an exact rational. -/
def roundTo2 (q : ℚ) : ℚ :=
  (pyRound (q * 100) : ℚ) / 100

/-- DayEntry models one element of the list returned by the weekly-risk route. -/
structure DayEntry where
  name : String
  risk : ℚ
  risk_label : String
  count : Nat
deriving DecidableEq, Repr

/-- bucket_score sums RISK_SCORE_MAP.get(risk, 0) over the risk labels of one
day bucket (src/app.py lines 373-376). -/
def bucket_score (risks : List String) : Int :=
  (risks.map (fun r => dictGetD RISK_SCORE_MAP r 0)).sum

/-- weekly_entry embeds the per-bucket output step of weekly_risk (src/app.py
lines 380-391): average score (0 for an empty bucket), rounded average as the
risk value, and the label obtained by mapping the rounded average through
RISK_LABEL_MAP with the "NONE" override for empty buckets. -/
def weekly_entry (name : String) (risks : List String) : DayEntry :=
  let count := risks.length
  let avg : ℚ := if 0 < count then (bucket_score risks : ℚ) / (count : ℚ) else 0
  { name := name
    risk := roundTo2 avg
    risk_label := if 0 < count then dictGetD RISK_LABEL_MAP (pyRound avg) "NONE" else "NONE"
    count := count }

/-- WeekReading models one stored reading as the weekly aggregation sees it:
the calendar-day offset within the 7-day window its timestamp falls on, and
its stored risk label.  Readings outside the window are excluded upstream by
the $gte timestamp query and the day_key membership check. -/
structure WeekReading where
  day : Nat
  risk : String
deriving DecidableEq, Repr

/-- day_names models the seven day names of the buckets, indexed by offset. -/
def day_names : List String := ["d0", "d1", "d2", "d3", "d4", "d5", "d6"]

/-- weekly_risk embeds weekly_risk (src/app.py lines 357-392): seven fixed day
buckets; each in-window reading accumulates its score into the bucket of its
own calendar day; every bucket then produces its DayEntry. -/
def weekly_risk (readings : List WeekReading) : List DayEntry :=
  (List.range 7).map (fun i =>
    weekly_entry (day_names.getD i "") ((readings.filter (fun r => r.day = i)).map (fun r => r.risk)))

/-! ## Alert lifecycle (src/app.py lines 403-491) -/

/-- AlertDoc models one document of the alerts collection.  The Mongo _id,
which increases with insertion order, is modelled by the oid field. -/
structure AlertDoc where
  oid : Nat
  id : String
  type : String
  severity : String
  location : String
  message : String
  channels : List String
  status : String
  timestamp : Int
  resolved_at : Option Int
deriving DecidableEq, Repr

/-- severity_order from src/app.py lines 403-404. -/
def severity_order (s : String) : Nat :=
  dictGetD [("Critical", 0), ("High", 1), ("Moderate", 2), ("Low", 3)] s 4

/-- status_key models the first component of the sort key of get_alerts
(src/app.py line 414): 0 for Active, 1 otherwise. -/
def status_key (d : AlertDoc) : Nat :=
  if d.status = "Active" then 0 else 1

/-- sort_key models the Python sort key tuple of get_alerts (src/app.py lines
413-416). -/
def sort_key (d : AlertDoc) : Nat × Nat :=
  (status_key d, severity_order d.severity)

/-- KeyLt is the strict lexicographic order on Python pairs of naturals. -/
def KeyLt (p q : Nat × Nat) : Prop :=
  p.1 < q.1 ∨ (p.1 = q.1 ∧ p.2 < q.2)

/-- KeyLe is the lexicographic order on Python pairs of naturals. -/
def KeyLe (p q : Nat × Nat) : Prop :=
  p.1 < q.1 ∨ (p.1 = q.1 ∧ p.2 ≤ q.2)

instance (p q : Nat × Nat) : Decidable (KeyLt p q) := by
  unfold KeyLt; infer_instance

instance (p q : Nat × Nat) : Decidable (KeyLe p q) := by
  unfold KeyLe; infer_instance

/-- insert_by_key inserts x before the first element whose key is at least the
key of x.  Together with sort_by_key this is the standard stable
insertion sort, the reference model of the (stable) Python list.sort with a
key function used by get_alerts. -/
def insert_by_key (x : AlertDoc) : List AlertDoc → List AlertDoc
  | [] => [x]
  | y :: ys =>
    if KeyLe (sort_key x) (sort_key y) then x :: y :: ys
    else y :: insert_by_key x ys

/-- sort_by_key is the stable sort by sort_key modelling docs.sort of
get_alerts (src/app.py lines 413-416). -/
def sort_by_key : List AlertDoc → List AlertDoc
  | [] => []
  | x :: xs => insert_by_key x (sort_by_key xs)

/-- get_alerts embeds get_alerts (src/app.py lines 407-420): fetch the latest
100 documents in descending insertion order, then stably sort by (status key,
severity rank).  The store list is in insertion order, so the descending fetch
is reverse followed by take 100. -/
def get_alerts (store : List AlertDoc) : List AlertDoc :=
  sort_by_key ((store.reverse).take 100)

/-- ListingLe is the ordering invariant claimed for the alert listing: the
earlier document has a lexicographically smaller or equal (status key,
severity rank) pair, and on equal pairs the earlier document is the more
recently created one (larger oid). -/
def ListingLe (x y : AlertDoc) : Prop :=
  KeyLt (sort_key x) (sort_key y) ∨ (sort_key x = sort_key y ∧ y.oid ≤ x.oid)

instance (x y : AlertDoc) : Decidable (ListingLe x y) := by
  unfold ListingLe; infer_instance

/-- AlertReq models the JSON body of the alert-creation request. -/
structure AlertReq where
  type : Option String
  severity : Option String
  location : Option String
  message : Option String
  channels : List String
deriving DecidableEq, Repr

/-- reqField maps a required-field name to its value in the request. -/
def reqField (req : AlertReq) (f : String) : Option String :=
  if f = "type" then req.type
  else if f = "severity" then req.severity
  else if f = "location" then req.location
  else if f = "message" then req.message
  else none

/-- required_fields is the list of required alert fields, in the order the
source validates them (src/app.py line 430). -/
def required_fields : List String := ["type", "severity", "location", "message"]

/-- create_alert embeds create_alert (src/app.py lines 423-466).  Field
validation in source order rejects before any write; the alert id is derived
from the current document count; the document is appended to the store; when
the SMS channel is selected, send_sms_alert is invoked with type MANUAL and the
templated body (message truncated to 100 characters) and its outcome is
embedded in the response but not in the stored document.  The oid parameter is
the Mongo-generated _id of the new document; year and now come from the clock.
The value is (response, new alerts store, new sms log). -/
def create_alert (store : List AlertDoc) (smsLog : List SmsRecord)
    (gw : String → GwOutcome) (req : AlertReq) (year : Nat) (oid : Nat) (now : Int) :
    Except String (AlertDoc × Option SmsResult) × List AlertDoc × List SmsRecord :=
  if pyFalsy req.type then (.error "Missing field: type", store, smsLog)
  else if pyFalsy req.severity then (.error "Missing field: severity", store, smsLog)
  else if pyFalsy req.location then (.error "Missing field: location", store, smsLog)
  else if pyFalsy req.message then (.error "Missing field: message", store, smsLog)
  else
    let count := store.length
    let alert_id := "AL-" ++ toString year ++ "-" ++ zfill 3 (toString (count + 1))
    let alert : AlertDoc :=
      ⟨oid, alert_id, req.type.getD "", req.severity.getD "", req.location.getD "",
        req.message.getD "", req.channels, "Active", now, none⟩
    let store2 := store ++ [alert]
    if "SMS" ∈ req.channels then
      let sms_body :=
        "MHEWS ALERT [" ++ (req.severity.getD "").toUpper ++ "]\nType: " ++
        req.type.getD "" ++ "\nLocation: " ++ req.location.getD "" ++ "\n" ++
        (req.message.getD "").take 100 ++ "\nRef: " ++ alert_id
      let out := send_sms_alert smsLog gw "MANUAL" sms_body none now
      (.ok (alert, some out.result), store2, smsLog ++ out.logged.toList)
    else
      (.ok (alert, none), store2, smsLog)

/-- ResolveResult models the response of the resolve route. -/
inductive ResolveResult where
  | success (id : String)
  | notFound
deriving DecidableEq, Repr

/-- resolve_update applies the $set of resolve_alert to the first document
matching the id, as Mongo update_one does. -/
def resolve_update (alert_id : String) (now : Int) : List AlertDoc → List AlertDoc
  | [] => []
  | a :: rest =>
    if a.id = alert_id then
      { a with status := "Resolved", resolved_at := some now } :: rest
    else a :: resolve_update alert_id now rest

/-- resolve_alert embeds resolve_alert (src/app.py lines 469-480): update_one
on the id filter sets status Resolved and a fresh resolved_at on the first
match; matched_count zero yields the not-found response. -/
def resolve_alert (store : List AlertDoc) (alert_id : String) (now : Int) :
    ResolveResult × List AlertDoc :=
  if store.any (fun a => a.id = alert_id) then
    (.success alert_id, resolve_update alert_id now store)
  else
    (.notFound, store)

/-- DeleteResult models the response of the delete route. -/
inductive DeleteResult where
  | success
  | notFound
deriving DecidableEq, Repr

/-- delete_alert embeds delete_alert (src/app.py lines 483-491): delete_one on
the id filter removes the first match; deleted_count zero yields the not-found
response. -/
def delete_alert (store : List AlertDoc) (alert_id : String) :
    DeleteResult × List AlertDoc :=
  if store.any (fun a => a.id = alert_id) then
    (.success, store.eraseP (fun a => a.id = alert_id))
  else
    (.notFound, store)

/-! ## Concrete fixtures used by witnesses and counterexamples -/

/-- gw_mixed is a gateway that accepts the first number and raises on every
other one. -/
def gw_mixed : String → GwOutcome :=
  fun n => if n = "+1" then .accepted "SID1" "queued" else .raised "boom"

/-- gw_down is a gateway whose every call raises. -/
def gw_down : String → GwOutcome :=
  fun _ => .raised "connection error"

/-- gw_ok is a gateway that accepts every call with a nonempty sid. -/
def gw_ok : String → GwOutcome :=
  fun n => .accepted ("SID" ++ n) "queued"

/-- gw_unused is a gateway for scenarios in which no SMS channel is selected. -/
def gw_unused : String → GwOutcome :=
  fun _ => .raised "unused"

/-- req_a is a valid alert-creation request. -/
def req_a : AlertReq := ⟨some "Flood", some "High", some "Zone A", some "rising water", []⟩

/-- req_b is a second valid alert-creation request. -/
def req_b : AlertReq := ⟨some "Fire", some "Critical", some "Zone B", some "smoke seen", []⟩

/-- req_c is a third valid alert-creation request. -/
def req_c : AlertReq := ⟨some "Rain", some "Low", some "Zone C", some "drizzle", []⟩

/-- c9_s1 is the store after creating the first alert (id AL-2026-001). -/
def c9_s1 : List AlertDoc := (create_alert [] [] gw_unused req_a 2026 1 0).2.1

/-- c9_s2 is the store after creating the second alert (id AL-2026-002). -/
def c9_s2 : List AlertDoc := (create_alert c9_s1 [] gw_unused req_b 2026 2 1).2.1

/-- c9_s3 is the store after deleting the first alert. -/
def c9_s3 : List AlertDoc := (delete_alert c9_s2 "AL-2026-001").2

/-- c9_create4 is the creation of a third alert after the deletion: the count
is back to 1, so the derived id collides with the surviving alert. -/
def c9_create4 : Except String (AlertDoc × Option SmsResult) × List AlertDoc × List SmsRecord :=
  create_alert c9_s3 [] gw_unused req_c 2026 3 2

/-- c9_s4 is the store after the colliding creation. -/
def c9_s4 : List AlertDoc := c9_create4.2.1

/-- demo_store is a small alerts store (in insertion order) with mixed
statuses and severities, used to witness the listing-order theorem. -/
def demo_store : List AlertDoc :=
  [⟨1, "AL-2026-001", "Flood", "High", "Z1", "m1", [], "Resolved", 0, some 4⟩,
   ⟨2, "AL-2026-002", "Fire", "Critical", "Z2", "m2", [], "Active", 1, none⟩,
   ⟨3, "AL-2026-003", "Rain", "Odd", "Z3", "m3", [], "Active", 2, none⟩,
   ⟨4, "AL-2026-004", "Air", "Critical", "Z4", "m4", [], "Active", 3, none⟩,
   ⟨5, "AL-2026-005", "Heat", "Low", "Z5", "m5", [], "Resolved", 4, some 9⟩]

/-- resolved_store is a one-document store whose alert is already Resolved,
used to witness repeated resolution. -/
def resolved_store : List AlertDoc :=
  [⟨1, "AL-2026-001", "Flood", "High", "Z1", "m1", [], "Resolved", 0, some 5⟩]

/-- cooldown_log_flood is a log holding one FLOOD record sent at time 0. -/
def cooldown_log_flood : List SmsRecord :=
  [⟨"FLOOD", "flood msg", ["+1"], "SID1", 0⟩]

/-- sensor_40 is a reading with distance 40 cm and no other signals. -/
def sensor_40 : SensorData := ⟨some 40, none, none, none, some "2026-01-01T00:00:00"⟩

/-- week_unknown holds one stored reading with risk label UNKNOWN on day 0. -/
def week_unknown : List WeekReading := [⟨0, "UNKNOWN"⟩]

/-- week_low holds one stored reading with risk label LOW on day 0. -/
def week_low : List WeekReading := [⟨0, "LOW"⟩]

/-! ## Cooldown theorems (claims C1, C5) -/

/-- C1 (amended): with cooldown C > 0 configured for type T and a history whose
records for T all carry timestamp t0 (at least one such record exists), a
dispatch attempt at time t is suppressed exactly when t is at most t0 + C: the
window is closed at its right end, because the source compares sent_at with the
cutoff using a non-strict query, so the attempt at exactly t0 + C is still
suppressed and only strictly later attempts pass.  Suppression is
per-hazard-type: a history with no record of type T never suppresses T,
whatever records of other types it holds. -/
theorem cooldown_window_closed (T : String) (C t0 : Int) (log : List SmsRecord) (t : Int)
    (hC : dictGetD SMS_COOLDOWN_MINUTES T 30 = C) (hCpos : 0 < C)
    (hall : ∀ r ∈ log, r.alert_type = T → r.sent_at = t0)
    (hmem : ∃ r ∈ log, r.alert_type = T) :
    (is_on_cooldown log T t = true ↔ t ≤ t0 + C)
    ∧ ∀ (log2 : List SmsRecord) (T2 : String) (t2 : Int),
        (∀ r ∈ log2, r.alert_type ≠ T2) → is_on_cooldown log2 T2 t2 = false := by
  constructor
  · simp only [is_on_cooldown, hC]
    have hne : ¬ (C = 0) := by omega
    simp only [if_neg hne, List.any_eq_true, Bool.and_eq_true, decide_eq_true_eq]
    constructor
    · rintro ⟨r, hr, hty, hle⟩
      have hs := hall r hr hty
      omega
    · intro hle
      obtain ⟨r, hr, hty⟩ := hmem
      refine ⟨r, hr, hty, ?_⟩
      have hs := hall r hr hty
      omega
  · intro log2 T2 t2 hnone
    simp only [is_on_cooldown]
    by_cases h0 : dictGetD SMS_COOLDOWN_MINUTES T2 30 = 0
    · simp [h0]
    · simp only [if_neg h0, List.any_eq_false, Bool.and_eq_true, decide_eq_true_eq, not_and]
      intro r hr hty
      exact absurd hty (hnone r hr)

/-- C1 counterexample: the claim as stated says the check reports not
suppressed at time t0 + C or later.  With a single FLOOD record at t0 = 0 and
the configured FLOOD cooldown C = 30, the check at exactly t0 + C = 30 still
reports suppressed. -/
theorem cooldown_at_boundary_still_suppressed :
    is_on_cooldown cooldown_log_flood "FLOOD" (0 + 30) = true := by decide

/-- C1 witness: the window theorem applied to the FLOOD type, a concrete
one-record history and the concrete attempt time 15. -/
theorem cooldown_window_closed_witness :
    (dictGetD SMS_COOLDOWN_MINUTES "FLOOD" 30 = 30
      ∧ (0 : Int) < 30
      ∧ (∀ r ∈ cooldown_log_flood, r.alert_type = "FLOOD" → r.sent_at = 0)
      ∧ (∃ r ∈ cooldown_log_flood, r.alert_type = "FLOOD"))
    ∧ ((is_on_cooldown cooldown_log_flood "FLOOD" 15 = true ↔ (15 : Int) ≤ 0 + 30)
      ∧ ∀ (log2 : List SmsRecord) (T2 : String) (t2 : Int),
          (∀ r ∈ log2, r.alert_type ≠ T2) → is_on_cooldown log2 T2 t2 = false) :=
  ⟨⟨by decide, by decide, by decide, by decide⟩,
    cooldown_window_closed "FLOOD" 30 0 cooldown_log_flood 15
      (by decide) (by decide) (by decide) (by decide)⟩

/-- C5: MANUAL dispatches are never suppressed; more generally any type whose
configured cooldown is 0 is never suppressed; and a type absent from
SMS_COOLDOWN_MINUTES gets the default cooldown of 30 minutes. -/
theorem manual_never_suppressed :
    (∀ (log : List SmsRecord) (now : Int), is_on_cooldown log "MANUAL" now = false)
    ∧ (∀ (T : String) (log : List SmsRecord) (now : Int),
        dictGetD SMS_COOLDOWN_MINUTES T 30 = 0 → is_on_cooldown log T now = false)
    ∧ (∀ T : String, T ∉ SMS_COOLDOWN_MINUTES.map Prod.fst →
        dictGetD SMS_COOLDOWN_MINUTES T 30 = 30) := by
  refine ⟨fun log now => rfl, fun T log now h => ?_, fun T hT => ?_⟩
  · simp only [is_on_cooldown]
    rw [if_pos h]
  · simp only [SMS_COOLDOWN_MINUTES, List.map, List.mem_cons, List.not_mem_nil, or_false,
      not_or] at hT
    obtain ⟨h1, h2, h3, h4, h5, h6⟩ := hT
    simp [dictGetD, SMS_COOLDOWN_MINUTES, List.find?,
      Ne.symm h1, Ne.symm h2, Ne.symm h3, Ne.symm h4, Ne.symm h5, Ne.symm h6]

/-- C5 witness: the theorem applied to a concrete MANUAL attempt over a
nonempty history, a concrete zero-cooldown type, and a concrete unconfigured
type. -/
theorem manual_never_suppressed_witness :
    is_on_cooldown cooldown_log_flood "MANUAL" 5 = false
    ∧ (dictGetD SMS_COOLDOWN_MINUTES "MANUAL" 30 = 0
      ∧ is_on_cooldown cooldown_log_flood "MANUAL" 7 = false)
    ∧ ("WIND" ∉ SMS_COOLDOWN_MINUTES.map Prod.fst
      ∧ dictGetD SMS_COOLDOWN_MINUTES "WIND" 30 = 30) :=
  ⟨manual_never_suppressed.1 cooldown_log_flood 5,
    ⟨by decide, manual_never_suppressed.2.1 "MANUAL" cooldown_log_flood 7 (by decide)⟩,
    ⟨by decide, manual_never_suppressed.2.2 "WIND" (by decide)⟩⟩

/-! ## Dispatch loop lemmas and theorems (claims C2, C3) -/

theorem getLast?_cons_getD {α : Type} (a : α) (l : List α) :
    (a :: l).getLast? = some (l.getLast?.getD a) := by
  induction l generalizing a with
  | nil => rfl
  | cons b bs ih =>
    rw [List.getLast?_cons_cons, ih b]
    simp

theorem sms_loop_attempts (gw : String → GwOutcome) (l : List String) :
    (sms_loop gw l).2 = attemptedPrefix gw (valid_recipients l) := by
  induction l with
  | nil => rfl
  | cons n rest ih =>
    simp only [valid_recipients, List.filter_cons] at *
    cases hsk : skip_number n with
    | true =>
      simp only [sms_loop, hsk, if_true, Bool.not_true, Bool.false_eq_true, if_false]
      exact ih
    | false =>
      simp only [sms_loop, hsk, Bool.false_eq_true, if_false, Bool.not_false, if_true]
      cases hg : gw n with
      | raised e => simp [attemptedPrefix, hg]
      | accepted sid st =>
        rcases hrec : sms_loop gw rest with ⟨lr, att⟩
        have hatt : att = attemptedPrefix gw (List.filter (fun n => !skip_number n) rest) := by
          rw [hrec] at ih
          exact ih
        cases lr with
        | raised e => simp [hg, hrec, attemptedPrefix, hatt]
        | completed results lsid => simp [hg, hrec, attemptedPrefix, hatt]

theorem sms_loop_no_raise (gw : String → GwOutcome) (l : List String)
    (h : ∀ n ∈ valid_recipients l, isAcceptedB (gw n) = true) :
    sms_loop gw l =
      (.completed (loop_entries gw (valid_recipients l))
        (last_accepted_sid gw (valid_recipients l)), valid_recipients l) := by
  induction l with
  | nil => rfl
  | cons n rest ih =>
    cases hsk : skip_number n with
    | true =>
      have hv : valid_recipients (n :: rest) = valid_recipients rest := by
        simp [valid_recipients, List.filter_cons, hsk]
      rw [hv] at h ⊢
      simp only [sms_loop, hsk, if_true]
      exact ih h
    | false =>
      have hv : valid_recipients (n :: rest) = n :: valid_recipients rest := by
        simp [valid_recipients, List.filter_cons, hsk]
      rw [hv] at h ⊢
      have hn : isAcceptedB (gw n) = true := h n (List.mem_cons_self n _)
      cases hg : gw n with
      | raised e => rw [hg] at hn; exact absurd hn (by simp [isAcceptedB])
      | accepted sid st =>
        have hrest : ∀ m ∈ valid_recipients rest, isAcceptedB (gw m) = true :=
          fun m hm => h m (List.mem_cons_of_mem n hm)
        simp only [sms_loop, hsk, Bool.false_eq_true, if_false, hg, ih hrest]
        simp [loop_entries, List.map_cons, hg, last_accepted_sid,
          getLast?_cons_getD]

theorem sms_loop_raise (gw : String → GwOutcome) (l : List String)
    (h : ∃ n ∈ valid_recipients l, isAcceptedB (gw n) = false) :
    ∃ e, (sms_loop gw l).1 = .raised e := by
  induction l with
  | nil => simp [valid_recipients] at h
  | cons n rest ih =>
    cases hsk : skip_number n with
    | true =>
      have hv : valid_recipients (n :: rest) = valid_recipients rest := by
        simp [valid_recipients, List.filter_cons, hsk]
      rw [hv] at h
      simp only [sms_loop, hsk, if_true]
      exact ih h
    | false =>
      have hv : valid_recipients (n :: rest) = n :: valid_recipients rest := by
        simp [valid_recipients, List.filter_cons, hsk]
      rw [hv] at h
      cases hg : gw n with
      | raised e => exact ⟨e, by simp [sms_loop, hsk, hg]⟩
      | accepted sid st =>
        have hrest : ∃ m ∈ valid_recipients rest, isAcceptedB (gw m) = false := by
          rcases h with ⟨m, hm, hfm⟩
          rcases List.mem_cons.mp hm with rfl | hm2
          · rw [hg] at hfm; simp [isAcceptedB] at hfm
          · exact ⟨m, hm2, hfm⟩
        rcases ih hrest with ⟨e, he⟩
        refine ⟨e, ?_⟩
        rcases hrec : sms_loop gw rest with ⟨lr, att⟩
        rw [hrec] at he
        cases lr with
        | raised e2 =>
          injection he with hee
          subst hee
          simp [sms_loop, hsk, hg, hrec]
        | completed results lsid => simp at he

theorem attemptedPrefix_all_accepted (gw : String → GwOutcome) (v : List String)
    (h : ∀ n ∈ v, isAcceptedB (gw n) = true) : attemptedPrefix gw v = v := by
  induction v with
  | nil => rfl
  | cons n rest ih =>
    have hn := h n (List.mem_cons_self n _)
    cases hg : gw n with
    | raised e => rw [hg] at hn; simp [isAcceptedB] at hn
    | accepted sid st =>
      simp only [attemptedPrefix, hg]
      rw [ih (fun m hm => h m (List.mem_cons_of_mem n hm))]

theorem last_accepted_sid_cons (gw : String → GwOutcome) (n : String)
    (v : List String) :
    last_accepted_sid gw (n :: v) =
      some ((last_accepted_sid gw v).getD (match gw n with
        | GwOutcome.accepted s _ => s
        | GwOutcome.raised _ => "")) := by
  simp only [last_accepted_sid, List.map_cons, getLast?_cons_getD]

theorem last_accepted_sid_ne_empty (gw : String → GwOutcome) (v : List String)
    (hv : v ≠ [])
    (hacc : ∀ n ∈ v, isAcceptedB (gw n) = true)
    (hsid : ∀ n ∈ v, ∀ s st, gw n = .accepted s st → s ≠ "") :
    ∃ s, last_accepted_sid gw v = some s ∧ s ≠ "" := by
  induction v with
  | nil => exact absurd rfl hv
  | cons n rest ih =>
    have hn := hacc n (List.mem_cons_self n _)
    cases hg : gw n with
    | raised e => rw [hg] at hn; simp [isAcceptedB] at hn
    | accepted sid st =>
      cases rest with
      | nil =>
        refine ⟨sid, ?_, hsid n (List.mem_cons_self n _) sid st hg⟩
        simp [last_accepted_sid, hg]
      | cons m ms =>
        obtain ⟨s, hs, hne⟩ := ih (by simp)
          (fun x hx => hacc x (List.mem_cons_of_mem n hx))
          (fun x hx => hsid x (List.mem_cons_of_mem n hx))
        refine ⟨s, ?_, hne⟩
        rw [last_accepted_sid_cons, hs]
        simp

/-- C2 (amended): with a quiescent cooldown, a NotificationRecord is written if
and only if the recipient loop ran to completion with every valid recipient
accepted by the gateway and at least one valid recipient present.  When a
transport error is raised partway through the loop, no record is written even
if the gateway had already accepted the message for an earlier recipient.  When
a record is written it carries the last successful gateway message id, the
alert type and the send time. -/
theorem sms_log_iff_loop_completed (log : List SmsRecord) (gw : String → GwOutcome)
    (T msg : String) (recips : List String) (now : Int)
    (hsid : ∀ n ∈ valid_recipients recips, ∀ s st, gw n = .accepted s st → s ≠ "")
    (hcd : is_on_cooldown log T now = false) :
    (((send_sms_alert log gw T msg (some recips) now).logged.isSome = true) ↔
      (valid_recipients recips ≠ []
        ∧ ∀ n ∈ valid_recipients recips, isAcceptedB (gw n) = true))
    ∧ (∀ rc, (send_sms_alert log gw T msg (some recips) now).logged = some rc →
        rc.twilio_sid = (last_accepted_sid gw (valid_recipients recips)).getD ""
        ∧ rc.alert_type = T ∧ rc.sent_at = now) := by
  by_cases hacc : ∀ n ∈ valid_recipients recips, isAcceptedB (gw n) = true
  · have hloop := sms_loop_no_raise gw recips hacc
    by_cases hv : valid_recipients recips = []
    · rw [hv] at hloop
      simp only [send_sms_alert, hcd, Bool.false_eq_true, if_false, hloop,
        loop_entries, last_accepted_sid, List.map_nil, List.getLast?_nil,
        pyTruthyOpt]
      simp [hv]
    · obtain ⟨s, hs, hne⟩ := last_accepted_sid_ne_empty gw (valid_recipients recips)
        hv hacc hsid
      simp only [send_sms_alert, hcd, Bool.false_eq_true, if_false, hloop, hs,
        pyTruthyOpt, hne]
      have hd : (decide (s ≠ "") = true) := by simp [hne]
      constructor
      · rw [if_pos hd]
        exact iff_of_true (by simp) ⟨hv, hacc⟩
      · intro rc hrc
        rw [if_pos hd] at hrc
        simp only [Option.some.injEq] at hrc
        subst hrc
        simp [hs]
  · push_neg at hacc
    obtain ⟨n, hn, hfn⟩ := hacc
    have hfn2 : isAcceptedB (gw n) = false := by
      cases hx : isAcceptedB (gw n)
      · rfl
      · exact absurd hx hfn
    obtain ⟨e, he⟩ := sms_loop_raise gw recips ⟨n, hn, hfn2⟩
    rcases hrec : sms_loop gw recips with ⟨lr, att⟩
    rw [hrec] at he
    simp only at he
    cases lr with
    | completed results lsid => simp at he
    | raised e2 =>
      simp only [send_sms_alert, hcd, Bool.false_eq_true, if_false, hrec]
      constructor
      · simp only [Option.isSome_none, Bool.false_eq_true, false_iff, not_and]
        intro _ hall
        exact absurd (hall n hn) (by simp [hfn2])
      · intro rc hrc
        simp at hrc

/-- C2 counterexample: with a gateway that accepts the first recipient and
raises on the second, the invocation has a recipient whose message the gateway
accepted, yet no NotificationRecord is written, because the raised error aborts
the loop before the logging step. -/
theorem sms_record_lost_despite_acceptance :
    (∃ n ∈ (send_sms_alert [] gw_mixed "MANUAL" "m" (some ["+1", "+2"]) 0).attempts,
      isAcceptedB (gw_mixed n) = true)
    ∧ (send_sms_alert [] gw_mixed "MANUAL" "m" (some ["+1", "+2"]) 0).logged = none := by
  decide

/-- C2 witness: the amended theorem applied to an always-accepting gateway,
two concrete recipients and an empty history. -/
theorem sms_log_iff_loop_completed_witness :
    ((∀ n ∈ valid_recipients ["+1", "+2"], ∀ s st, gw_ok n = .accepted s st → s ≠ "")
      ∧ is_on_cooldown [] "MANUAL" 0 = false)
    ∧ ((((send_sms_alert [] gw_ok "MANUAL" "m" (some ["+1", "+2"]) 0).logged.isSome = true) ↔
        (valid_recipients ["+1", "+2"] ≠ []
          ∧ ∀ n ∈ valid_recipients ["+1", "+2"], isAcceptedB (gw_ok n) = true))
      ∧ (∀ rc, (send_sms_alert [] gw_ok "MANUAL" "m" (some ["+1", "+2"]) 0).logged = some rc →
          rc.twilio_sid = (last_accepted_sid gw_ok (valid_recipients ["+1", "+2"])).getD ""
          ∧ rc.alert_type = "MANUAL" ∧ rc.sent_at = 0)) :=
  have hsid : ∀ n ∈ valid_recipients ["+1", "+2"], ∀ s st,
      gw_ok n = .accepted s st → s ≠ "" := by
    intro n _ s st h hc
    simp only [gw_ok, GwOutcome.accepted.injEq] at h
    rw [← h.1] at hc
    have hlen := congrArg String.length hc
    rw [String.length_append] at hlen
    have h3 : "SID".length = 3 := rfl
    have h0 : "".length = 0 := rfl
    omega
  ⟨⟨hsid, by decide⟩,
    sms_log_iff_loop_completed [] gw_ok "MANUAL" "m" ["+1", "+2"] 0 hsid (by decide)⟩

/-- C3 (amended): with a quiescent cooldown, the delivery attempts of one
dispatch are exactly the valid recipients up to and including the first one
whose gateway call raises: a raised delivery failure for one recipient does
prevent attempts for the remaining recipients, while skipped placeholder
entries and accepted deliveries do not; in particular, when no call raises,
every valid recipient receives exactly one delivery attempt, in list order. -/
theorem attempts_stop_at_first_raise (log : List SmsRecord) (gw : String → GwOutcome)
    (T msg : String) (recips : List String) (now : Int)
    (hcd : is_on_cooldown log T now = false) :
    (send_sms_alert log gw T msg (some recips) now).attempts
      = attemptedPrefix gw (valid_recipients recips)
    ∧ ((∀ n ∈ valid_recipients recips, isAcceptedB (gw n) = true) →
        (send_sms_alert log gw T msg (some recips) now).attempts
          = valid_recipients recips) := by
  have hatt : (send_sms_alert log gw T msg (some recips) now).attempts
      = (sms_loop gw recips).2 := by
    rcases hrec : sms_loop gw recips with ⟨lr, att⟩
    cases lr with
    | raised e => simp [send_sms_alert, hcd, hrec]
    | completed results lsid =>
      simp only [send_sms_alert, hcd, Bool.false_eq_true, if_false, hrec]
      by_cases ht : pyTruthyOpt lsid = true
      · simp [ht]
      · simp only [Bool.not_eq_true] at ht
        simp [ht]
  constructor
  · rw [hatt, sms_loop_attempts]
  · intro hacc
    rw [hatt, sms_loop_attempts, attemptedPrefix_all_accepted gw _ hacc]

/-- C3 counterexample: with a gateway whose first call raises, the second
recipient is valid but never receives a delivery attempt, so a failure raised
for one recipient does prevent delivery attempts to the remaining ones. -/
theorem later_recipient_never_attempted :
    "+2" ∈ valid_recipients ["+1", "+2"]
    ∧ (send_sms_alert [] gw_down "MANUAL" "m" (some ["+1", "+2"]) 0).attempts = ["+1"]
    ∧ "+2" ∉ (send_sms_alert [] gw_down "MANUAL" "m" (some ["+1", "+2"]) 0).attempts := by
  decide

/-- C3 witness: the amended theorem applied to a concrete dispatch with an
always-accepting gateway and an empty history. -/
theorem attempts_stop_at_first_raise_witness :
    is_on_cooldown [] "MANUAL" 0 = false
    ∧ ((send_sms_alert [] gw_ok "MANUAL" "m" (some ["+1", "+2"]) 0).attempts
        = attemptedPrefix gw_ok (valid_recipients ["+1", "+2"])
      ∧ ((∀ n ∈ valid_recipients ["+1", "+2"], isAcceptedB (gw_ok n) = true) →
          (send_sms_alert [] gw_ok "MANUAL" "m" (some ["+1", "+2"]) 0).attempts
            = valid_recipients ["+1", "+2"])) :=
  ⟨by decide, attempts_stop_at_first_raise [] gw_ok "MANUAL" "m" ["+1", "+2"] 0 (by decide)⟩

/-! ## Threshold evaluation lemmas and theorem (claim C4) -/

theorem flood_calls_type (d : Int) (ts : String) :
    ∀ c ∈ flood_calls d ts, c.alert_type = "FLOOD" := by
  intro c hc
  unfold flood_calls at hc
  split at hc
  · simp at hc; rw [hc]
  · split at hc
    · simp at hc; rw [hc]
    · simp at hc

theorem rain_calls_type (r : Int) (ts : String) :
    ∀ c ∈ rain_calls r ts, c.alert_type = "RAIN" := by
  intro c hc
  unfold rain_calls at hc
  split at hc
  · simp at hc; rw [hc]
  · split at hc
    · simp at hc; rw [hc]
    · simp at hc

theorem air_calls_type (a : Int) (ts : String) :
    ∀ c ∈ air_calls a ts, c.alert_type = "AIR" := by
  intro c hc
  unfold air_calls at hc
  split at hc
  · simp at hc; rw [hc]
  · split at hc
    · simp at hc; rw [hc]
    · simp at hc

theorem fire_calls_type (t : Int) (ts : String) :
    ∀ c ∈ fire_calls t ts, c.alert_type = "FIRE" := by
  intro c hc
  unfold fire_calls at hc
  split at hc
  · simp at hc; rw [hc]
  · split at hc
    · simp at hc; rw [hc]
    · simp at hc

theorem risk_calls_type (risk : String) (t r d a : Int) (ts : String) :
    ∀ c ∈ risk_calls risk t r d a ts, c.alert_type = "RISK_HIGH" := by
  intro c hc
  unfold risk_calls at hc
  split at hc
  · simp at hc; rw [hc]
  · simp at hc

theorem flood_calls_len (d : Int) (ts : String) : (flood_calls d ts).length ≤ 1 := by
  unfold flood_calls
  split
  · simp
  · split <;> simp

theorem rain_calls_len (r : Int) (ts : String) : (rain_calls r ts).length ≤ 1 := by
  unfold rain_calls
  split
  · simp
  · split <;> simp

theorem air_calls_len (a : Int) (ts : String) : (air_calls a ts).length ≤ 1 := by
  unfold air_calls
  split
  · simp
  · split <;> simp

theorem fire_calls_len (t : Int) (ts : String) : (fire_calls t ts).length ≤ 1 := by
  unfold fire_calls
  split
  · simp
  · split <;> simp

theorem flood_calls_critical (d : Int) (ts : String) (h : d ≤ 50) :
    ∃ m, flood_calls d ts = [⟨"FLOOD", Tier.CRITICAL, m⟩] := by
  unfold flood_calls
  rw [if_pos (show d ≤ thr "distance" "critical" by rwa [show thr "distance" "critical" = 50 from rfl])]
  exact ⟨_, rfl⟩

theorem rain_calls_critical (r : Int) (ts : String) (h : r ≥ 90) :
    ∃ m, rain_calls r ts = [⟨"RAIN", Tier.CRITICAL, m⟩] := by
  unfold rain_calls
  rw [if_pos (show r ≥ thr "rain_level" "critical" by rwa [show thr "rain_level" "critical" = 90 from rfl])]
  exact ⟨_, rfl⟩

theorem air_calls_critical (a : Int) (ts : String) (h : a ≥ 250) :
    ∃ m, air_calls a ts = [⟨"AIR", Tier.CRITICAL, m⟩] := by
  unfold air_calls
  rw [if_pos (show a ≥ thr "air_quality" "critical" by rwa [show thr "air_quality" "critical" = 250 from rfl])]
  exact ⟨_, rfl⟩

theorem fire_calls_critical (t : Int) (ts : String) (h : t ≥ 45) :
    ∃ m, fire_calls t ts = [⟨"FIRE", Tier.CRITICAL, m⟩] := by
  unfold fire_calls
  rw [if_pos (show t ≥ thr "temperature" "critical" by rwa [show thr "temperature" "critical" = 45 from rfl])]
  exact ⟨_, rfl⟩

theorem countP_type_zero (X Y : String) (hXY : Y ≠ X) (l : List SmsCall)
    (hl : ∀ c ∈ l, c.alert_type = Y) :
    l.countP (fun c => c.alert_type == X) = 0 := by
  rw [List.countP_eq_zero]
  intro c hc
  simp [hl c hc, hXY]

theorem countP_type_le_one (X : String) (l : List SmsCall) (h : l.length ≤ 1) :
    l.countP (fun c => c.alert_type == X) ≤ 1 :=
  le_trans (List.countP_le_length _) h

theorem mem_five_append {c : SmsCall} {l1 l2 l3 l4 l5 : List SmsCall}
    (hc : c ∈ l1 ++ l2 ++ l3 ++ l4 ++ l5) :
    c ∈ l1 ∨ c ∈ l2 ∨ c ∈ l3 ∨ c ∈ l4 ∨ c ∈ l5 := by
  simp only [List.mem_append] at hc
  tauto

/-- C4: for every sensor reading, the evaluation emits at most one candidate
per monitored signal (at most one FLOOD, RAIN, AIR and FIRE call each), and
when the critical cutoff of a signal is met in its own direction (distance at
most 50, rain at least 90, air at least 250, temperature at least 45) the
emitted candidate for that signal is the CRITICAL one and no WARN candidate
for that signal exists, since the elif skips the WARN check. -/
theorem critical_shadows_warn (data : SensorData) (risk : String) (now_iso : String) :
    ((check_and_send_sensor_sms data risk now_iso).countP
        (fun c => c.alert_type == "FLOOD") ≤ 1
      ∧ (check_and_send_sensor_sms data risk now_iso).countP
          (fun c => c.alert_type == "RAIN") ≤ 1
      ∧ (check_and_send_sensor_sms data risk now_iso).countP
          (fun c => c.alert_type == "AIR") ≤ 1
      ∧ (check_and_send_sensor_sms data risk now_iso).countP
          (fun c => c.alert_type == "FIRE") ≤ 1)
    ∧ (data.distance.getD 999 ≤ 50 →
        (∃ c ∈ check_and_send_sensor_sms data risk now_iso,
          c.alert_type = "FLOOD" ∧ c.tier = Tier.CRITICAL)
        ∧ ∀ c ∈ check_and_send_sensor_sms data risk now_iso,
            c.alert_type = "FLOOD" → c.tier = Tier.CRITICAL)
    ∧ (90 ≤ data.rain_level.getD 0 →
        (∃ c ∈ check_and_send_sensor_sms data risk now_iso,
          c.alert_type = "RAIN" ∧ c.tier = Tier.CRITICAL)
        ∧ ∀ c ∈ check_and_send_sensor_sms data risk now_iso,
            c.alert_type = "RAIN" → c.tier = Tier.CRITICAL)
    ∧ (250 ≤ data.air_quality.getD 0 →
        (∃ c ∈ check_and_send_sensor_sms data risk now_iso,
          c.alert_type = "AIR" ∧ c.tier = Tier.CRITICAL)
        ∧ ∀ c ∈ check_and_send_sensor_sms data risk now_iso,
            c.alert_type = "AIR" → c.tier = Tier.CRITICAL)
    ∧ (45 ≤ data.temperature.getD 0 →
        (∃ c ∈ check_and_send_sensor_sms data risk now_iso,
          c.alert_type = "FIRE" ∧ c.tier = Tier.CRITICAL)
        ∧ ∀ c ∈ check_and_send_sensor_sms data risk now_iso,
            c.alert_type = "FIRE" → c.tier = Tier.CRITICAL) := by
  set d := data.distance.getD 999 with hd
  set r := data.rain_level.getD 0 with hr
  set a := data.air_quality.getD 0 with ha
  set t := data.temperature.getD 0 with ht
  set ts := ((data.timestamp.getD now_iso).take 19).replace "T" " " ++ " UTC" with hts
  have hexp : check_and_send_sensor_sms data risk now_iso
      = flood_calls d ts ++ rain_calls r ts ++ air_calls a ts ++ fire_calls t ts
        ++ risk_calls risk t r d a ts := rfl
  simp only [hexp]
  refine ⟨⟨?_, ?_, ?_, ?_⟩, ?_, ?_, ?_, ?_⟩
  · -- count bound for FLOOD
    have h1 := countP_type_le_one "FLOOD" (flood_calls d ts) (flood_calls_len d ts)
    have h2 := countP_type_zero "FLOOD" "RAIN" (by decide) _ (rain_calls_type r ts)
    have h3 := countP_type_zero "FLOOD" "AIR" (by decide) _ (air_calls_type a ts)
    have h4 := countP_type_zero "FLOOD" "FIRE" (by decide) _ (fire_calls_type t ts)
    have h5 := countP_type_zero "FLOOD" "RISK_HIGH" (by decide) _ (risk_calls_type risk t r d a ts)
    simp only [List.countP_append]
    omega
  · -- count bound for RAIN
    have h1 := countP_type_zero "RAIN" "FLOOD" (by decide) _ (flood_calls_type d ts)
    have h2 := countP_type_le_one "RAIN" (rain_calls r ts) (rain_calls_len r ts)
    have h3 := countP_type_zero "RAIN" "AIR" (by decide) _ (air_calls_type a ts)
    have h4 := countP_type_zero "RAIN" "FIRE" (by decide) _ (fire_calls_type t ts)
    have h5 := countP_type_zero "RAIN" "RISK_HIGH" (by decide) _ (risk_calls_type risk t r d a ts)
    simp only [List.countP_append]
    omega
  · -- count bound for AIR
    have h1 := countP_type_zero "AIR" "FLOOD" (by decide) _ (flood_calls_type d ts)
    have h2 := countP_type_zero "AIR" "RAIN" (by decide) _ (rain_calls_type r ts)
    have h3 := countP_type_le_one "AIR" (air_calls a ts) (air_calls_len a ts)
    have h4 := countP_type_zero "AIR" "FIRE" (by decide) _ (fire_calls_type t ts)
    have h5 := countP_type_zero "AIR" "RISK_HIGH" (by decide) _ (risk_calls_type risk t r d a ts)
    simp only [List.countP_append]
    omega
  · -- count bound for FIRE
    have h1 := countP_type_zero "FIRE" "FLOOD" (by decide) _ (flood_calls_type d ts)
    have h2 := countP_type_zero "FIRE" "RAIN" (by decide) _ (rain_calls_type r ts)
    have h3 := countP_type_zero "FIRE" "AIR" (by decide) _ (air_calls_type a ts)
    have h4 := countP_type_le_one "FIRE" (fire_calls t ts) (fire_calls_len t ts)
    have h5 := countP_type_zero "FIRE" "RISK_HIGH" (by decide) _ (risk_calls_type risk t r d a ts)
    simp only [List.countP_append]
    omega
  · -- critical precedence for FLOOD
    intro h
    obtain ⟨m, hm⟩ := flood_calls_critical d ts h
    constructor
    · refine ⟨⟨"FLOOD", Tier.CRITICAL, m⟩, ?_, rfl, rfl⟩
      simp [hm, List.mem_append]
    · intro c hc hty
      rcases mem_five_append hc with hxFLOOD | hxRAIN | hxAIR | hxFIRE | hxRISK_HIGH
      · rw [hm] at hxFLOOD
        simp at hxFLOOD
        rw [hxFLOOD]
      · have hty2 := rain_calls_type r ts c hxRAIN
        rw [hty] at hty2
        exact absurd hty2 (by decide)
      · have hty2 := air_calls_type a ts c hxAIR
        rw [hty] at hty2
        exact absurd hty2 (by decide)
      · have hty2 := fire_calls_type t ts c hxFIRE
        rw [hty] at hty2
        exact absurd hty2 (by decide)
      · have hty2 := risk_calls_type risk t r d a ts c hxRISK_HIGH
        rw [hty] at hty2
        exact absurd hty2 (by decide)
  · -- critical precedence for RAIN
    intro h
    obtain ⟨m, hm⟩ := rain_calls_critical r ts h
    constructor
    · refine ⟨⟨"RAIN", Tier.CRITICAL, m⟩, ?_, rfl, rfl⟩
      simp [hm, List.mem_append]
    · intro c hc hty
      rcases mem_five_append hc with hxFLOOD | hxRAIN | hxAIR | hxFIRE | hxRISK_HIGH
      · have hty2 := flood_calls_type d ts c hxFLOOD
        rw [hty] at hty2
        exact absurd hty2 (by decide)
      · rw [hm] at hxRAIN
        simp at hxRAIN
        rw [hxRAIN]
      · have hty2 := air_calls_type a ts c hxAIR
        rw [hty] at hty2
        exact absurd hty2 (by decide)
      · have hty2 := fire_calls_type t ts c hxFIRE
        rw [hty] at hty2
        exact absurd hty2 (by decide)
      · have hty2 := risk_calls_type risk t r d a ts c hxRISK_HIGH
        rw [hty] at hty2
        exact absurd hty2 (by decide)
  · -- critical precedence for AIR
    intro h
    obtain ⟨m, hm⟩ := air_calls_critical a ts h
    constructor
    · refine ⟨⟨"AIR", Tier.CRITICAL, m⟩, ?_, rfl, rfl⟩
      simp [hm, List.mem_append]
    · intro c hc hty
      rcases mem_five_append hc with hxFLOOD | hxRAIN | hxAIR | hxFIRE | hxRISK_HIGH
      · have hty2 := flood_calls_type d ts c hxFLOOD
        rw [hty] at hty2
        exact absurd hty2 (by decide)
      · have hty2 := rain_calls_type r ts c hxRAIN
        rw [hty] at hty2
        exact absurd hty2 (by decide)
      · rw [hm] at hxAIR
        simp at hxAIR
        rw [hxAIR]
      · have hty2 := fire_calls_type t ts c hxFIRE
        rw [hty] at hty2
        exact absurd hty2 (by decide)
      · have hty2 := risk_calls_type risk t r d a ts c hxRISK_HIGH
        rw [hty] at hty2
        exact absurd hty2 (by decide)
  · -- critical precedence for FIRE
    intro h
    obtain ⟨m, hm⟩ := fire_calls_critical t ts h
    constructor
    · refine ⟨⟨"FIRE", Tier.CRITICAL, m⟩, ?_, rfl, rfl⟩
      simp [hm, List.mem_append]
    · intro c hc hty
      rcases mem_five_append hc with hxFLOOD | hxRAIN | hxAIR | hxFIRE | hxRISK_HIGH
      · have hty2 := flood_calls_type d ts c hxFLOOD
        rw [hty] at hty2
        exact absurd hty2 (by decide)
      · have hty2 := rain_calls_type r ts c hxRAIN
        rw [hty] at hty2
        exact absurd hty2 (by decide)
      · have hty2 := air_calls_type a ts c hxAIR
        rw [hty] at hty2
        exact absurd hty2 (by decide)
      · rw [hm] at hxFIRE
        simp at hxFIRE
        rw [hxFIRE]
      · have hty2 := risk_calls_type risk t r d a ts c hxRISK_HIGH
        rw [hty] at hty2
        exact absurd hty2 (by decide)

/-- C4 witness: the theorem applied to the reading with distance 40, whose
critical flood cutoff 50 is met: exactly one FLOOD candidate exists, it is
CRITICAL, and no FLOOD WARN candidate is emitted. -/
theorem critical_shadows_warn_witness :
    sensor_40.distance.getD 999 ≤ 50
    ∧ ((∃ c ∈ check_and_send_sensor_sms sensor_40 "LOW" "t0",
          c.alert_type = "FLOOD" ∧ c.tier = Tier.CRITICAL)
      ∧ ∀ c ∈ check_and_send_sensor_sms sensor_40 "LOW" "t0",
          c.alert_type = "FLOOD" → c.tier = Tier.CRITICAL)
    ∧ (check_and_send_sensor_sms sensor_40 "LOW" "t0").countP
        (fun c => c.alert_type == "FLOOD") = 1 :=
  ⟨by decide, (critical_shadows_warn sensor_40 "LOW" "t0").2.1 (by decide), by decide⟩

/-! ## Weekly risk lemmas and theorems (claim C6) -/

theorem risk_score_bounds (r : String) :
    0 ≤ dictGetD RISK_SCORE_MAP r 0 ∧ dictGetD RISK_SCORE_MAP r 0 ≤ 3 := by
  unfold dictGetD
  cases h : List.find? (fun kv => kv.1 = r) RISK_SCORE_MAP with
  | none => simp
  | some kv =>
    have hm := List.mem_of_find?_eq_some h
    simp only [RISK_SCORE_MAP, List.mem_cons, List.not_mem_nil, or_false] at hm
    rcases hm with h1 | h1 | h1 | h1 <;> rw [h1] <;> simp

theorem bucket_score_bounds (risks : List String) :
    0 ≤ bucket_score risks ∧ bucket_score risks ≤ 3 * risks.length := by
  induction risks with
  | nil => simp [bucket_score]
  | cons r rest ih =>
    have hr := risk_score_bounds r
    simp only [bucket_score, List.map_cons, List.sum_cons, List.length_cons] at *
    constructor
    · exact add_nonneg hr.1 ih.1
    · have := ih.2
      push_cast
      omega

theorem pyRound_bounds (q : ℚ) (h0 : 0 ≤ q) (h3 : q ≤ 3) :
    0 ≤ pyRound q ∧ pyRound q ≤ 3 := by
  have hf0 : 0 ≤ ⌊q⌋ := Int.le_floor.mpr (by exact_mod_cast h0)
  have hfr : (⌊q⌋ : ℚ) ≤ q := Int.floor_le q
  have hf3 : (⌊q⌋ : ℚ) ≤ 3 := le_trans hfr h3
  have hf3i : ⌊q⌋ ≤ 3 := by exact_mod_cast hf3
  unfold pyRound
  by_cases h1 : q - ⌊q⌋ < 1/2
  · rw [if_pos h1]
    exact ⟨hf0, hf3i⟩
  · rw [if_neg h1]
    have hge : (1 : ℚ)/2 ≤ q - ⌊q⌋ := le_of_not_lt h1
    have hle2 : ⌊q⌋ ≤ 2 := by
      have hq3 : (⌊q⌋ : ℚ) < 3 := by linarith
      have : ⌊q⌋ < 3 := by exact_mod_cast hq3
      omega
    by_cases h2 : (1 : ℚ)/2 < q - ⌊q⌋
    · rw [if_pos h2]
      exact ⟨by omega, by omega⟩
    · rw [if_neg h2]
      by_cases h4 : ⌊q⌋ % 2 = 0
      · rw [if_pos h4]
        exact ⟨hf0, hf3i⟩
      · rw [if_neg h4]
        exact ⟨by omega, by omega⟩

theorem label_of_bounded (n : ℤ) (h0 : 0 ≤ n) (h3 : n ≤ 3) :
    dictGetD RISK_LABEL_MAP n "NONE" = "UNKNOWN"
    ∨ dictGetD RISK_LABEL_MAP n "NONE" = "LOW"
    ∨ dictGetD RISK_LABEL_MAP n "NONE" = "MEDIUM"
    ∨ dictGetD RISK_LABEL_MAP n "NONE" = "HIGH" := by
  interval_cases n <;> decide

/-- C6 (amended): in the weekly risk summary, for every day bucket with at
least one reading the reported label is one of UNKNOWN, LOW, MEDIUM, HIGH (the
"NONE" fallback of the rounded-average lookup is unreachable for nonzero-count
days, but the UNKNOWN entry of the table is reachable, e.g. for a day of
UNKNOWN-risk readings); a day bucket with zero readings always reports label
"NONE". -/
theorem weekly_label_of_rounded_average (readings : List WeekReading) :
    ∀ e ∈ weekly_risk readings,
      (0 < e.count →
        (e.risk_label = "UNKNOWN" ∨ e.risk_label = "LOW"
          ∨ e.risk_label = "MEDIUM" ∨ e.risk_label = "HIGH"))
      ∧ (e.count = 0 → e.risk_label = "NONE") := by
  intro e he
  simp only [weekly_risk, List.mem_map, List.mem_range] at he
  obtain ⟨i, _, hei⟩ := he
  subst hei
  simp only [weekly_entry]
  constructor
  · intro hpos
    have hb := bucket_score_bounds
      ((readings.filter (fun rr => rr.day = i)).map (fun rr => rr.risk))
    set risks := (readings.filter (fun rr => rr.day = i)).map (fun rr => rr.risk) with hrisks
    rw [if_pos hpos, if_pos hpos]
    have hq0 : (0 : ℚ) ≤ (bucket_score risks : ℚ) / (risks.length : ℚ) := by
      apply div_nonneg
      · exact_mod_cast hb.1
      · positivity
    have hq3 : (bucket_score risks : ℚ) / (risks.length : ℚ) ≤ 3 := by
      rw [div_le_iff₀ (by exact_mod_cast hpos)]
      exact_mod_cast hb.2
    exact label_of_bounded _ (pyRound_bounds _ hq0 hq3).1 (pyRound_bounds _ hq0 hq3).2
  · intro h0
    rw [if_neg (by omega)]

/-- C6 counterexample: the claim as stated says nonzero-count days always
report LOW, MEDIUM or HIGH.  A day holding a single reading whose stored risk
is UNKNOWN has score sum 0, average 0, rounded average 0, and the label lookup
returns "UNKNOWN" for it, so the UNKNOWN entry is reachable for nonzero-count
days. -/
theorem weekly_unknown_label_reachable :
    ∃ e ∈ weekly_risk week_unknown, 0 < e.count ∧ e.risk_label = "UNKNOWN" := by
  refine ⟨weekly_entry (day_names.getD 0 "") ["UNKNOWN"], ?_, ?_, ?_⟩
  · simp only [weekly_risk, List.mem_map, List.mem_range]
    refine ⟨0, by norm_num, ?_⟩
    norm_num [week_unknown, List.filter, List.map]
  · norm_num [weekly_entry]
  · have hb : bucket_score ["UNKNOWN"] = 0 := by decide
    simp only [weekly_entry, hb]
    norm_num [pyRound]
    decide

/-- C6 witness: the amended theorem applied to a store holding one LOW reading
on day 0, at the bucket of day 0. -/
theorem weekly_label_witness :
    (weekly_entry (day_names.getD 0 "")
        ((week_low.filter (fun rr => rr.day = 0)).map (fun rr => rr.risk))
      ∈ weekly_risk week_low)
    ∧ ((0 < (weekly_entry (day_names.getD 0 "")
          ((week_low.filter (fun rr => rr.day = 0)).map (fun rr => rr.risk))).count →
        ((weekly_entry (day_names.getD 0 "")
            ((week_low.filter (fun rr => rr.day = 0)).map (fun rr => rr.risk))).risk_label = "UNKNOWN"
          ∨ (weekly_entry (day_names.getD 0 "")
              ((week_low.filter (fun rr => rr.day = 0)).map (fun rr => rr.risk))).risk_label = "LOW"
          ∨ (weekly_entry (day_names.getD 0 "")
              ((week_low.filter (fun rr => rr.day = 0)).map (fun rr => rr.risk))).risk_label = "MEDIUM"
          ∨ (weekly_entry (day_names.getD 0 "")
              ((week_low.filter (fun rr => rr.day = 0)).map (fun rr => rr.risk))).risk_label = "HIGH"))
      ∧ ((weekly_entry (day_names.getD 0 "")
            ((week_low.filter (fun rr => rr.day = 0)).map (fun rr => rr.risk))).count = 0 →
          (weekly_entry (day_names.getD 0 "")
            ((week_low.filter (fun rr => rr.day = 0)).map (fun rr => rr.risk))).risk_label = "NONE")) :=
  have hm : weekly_entry (day_names.getD 0 "")
      ((week_low.filter (fun rr => rr.day = 0)).map (fun rr => rr.risk))
      ∈ weekly_risk week_low := by
    simp only [weekly_risk, List.mem_map, List.mem_range]
    exact ⟨0, by norm_num, rfl⟩
  ⟨hm, weekly_label_of_rounded_average week_low _ hm⟩

/-! ## Alert listing order lemmas and theorem (claim C7) -/

theorem keyLe_or_keyLt (p q : Nat × Nat) : KeyLe p q ∨ KeyLt q p := by
  rcases p with ⟨p1, p2⟩
  rcases q with ⟨q1, q2⟩
  unfold KeyLe KeyLt
  simp only
  omega

theorem keyLe_trans {p q r : Nat × Nat} (h1 : KeyLe p q) (h2 : KeyLe q r) : KeyLe p r := by
  rcases p with ⟨p1, p2⟩
  rcases q with ⟨q1, q2⟩
  rcases r with ⟨r1, r2⟩
  unfold KeyLe at *
  simp only at *
  omega

theorem keyLe_iff {p q : Nat × Nat} : KeyLe p q ↔ KeyLt p q ∨ p = q := by
  rcases p with ⟨p1, p2⟩
  rcases q with ⟨q1, q2⟩
  simp only [KeyLe, KeyLt, Prod.mk.injEq]
  omega

theorem listingLe_of_le_oid {x y : AlertDoc} (hk : KeyLe (sort_key x) (sort_key y))
    (ho : y.oid < x.oid) : ListingLe x y := by
  rcases keyLe_iff.mp hk with h | h
  · exact Or.inl h
  · exact Or.inr ⟨h, le_of_lt ho⟩

theorem mem_insert_by_key {a x : AlertDoc} {l : List AlertDoc} :
    a ∈ insert_by_key x l ↔ a = x ∨ a ∈ l := by
  induction l with
  | nil => simp [insert_by_key]
  | cons y ys ih =>
    show a ∈ (if KeyLe (sort_key x) (sort_key y) then x :: y :: ys
      else y :: insert_by_key x ys) ↔ a = x ∨ a ∈ y :: ys
    by_cases hk : KeyLe (sort_key x) (sort_key y)
    · rw [if_pos hk]
      simp only [List.mem_cons]
    · rw [if_neg hk]
      simp only [List.mem_cons, ih]
      tauto

theorem insert_by_key_pairwise (x : AlertDoc) (l : List AlertDoc)
    (hl : l.Pairwise ListingLe) (hall : ∀ y ∈ l, y.oid < x.oid) :
    (insert_by_key x l).Pairwise ListingLe := by
  induction l with
  | nil => simp [insert_by_key]
  | cons y ys ih =>
    rcases List.pairwise_cons.mp hl with ⟨hy, hys⟩
    unfold insert_by_key
    split
    case isTrue hk =>
      refine List.pairwise_cons.mpr ⟨?_, hl⟩
      intro z hz
      rcases List.mem_cons.mp hz with rfl | hz2
      · exact listingLe_of_le_oid hk (hall z (List.mem_cons_self _ _))
      · have hyz := hy z hz2
        have hk2 : KeyLe (sort_key y) (sort_key z) := by
          rcases hyz with h | h
          · exact keyLe_iff.mpr (Or.inl h)
          · exact keyLe_iff.mpr (Or.inr h.1)
        exact listingLe_of_le_oid (keyLe_trans hk hk2)
          (hall z (List.mem_cons_of_mem _ hz2))
    case isFalse hk =>
      refine List.pairwise_cons.mpr
        ⟨?_, ih hys (fun z hz => hall z (List.mem_cons_of_mem _ hz))⟩
      intro z hz
      rcases mem_insert_by_key.mp hz with rfl | hz2
      · rcases keyLe_or_keyLt (sort_key z) (sort_key y) with h | h
        · exact absurd h hk
        · exact Or.inl h
      · exact hy z hz2

theorem mem_sort_by_key {a : AlertDoc} {l : List AlertDoc} :
    a ∈ sort_by_key l ↔ a ∈ l := by
  induction l with
  | nil => simp [sort_by_key]
  | cons x xs ih =>
    simp only [sort_by_key, mem_insert_by_key, ih, List.mem_cons]

theorem sort_by_key_pairwise (l : List AlertDoc)
    (h : l.Pairwise (fun a b => b.oid < a.oid)) :
    (sort_by_key l).Pairwise ListingLe := by
  induction l with
  | nil => simp [sort_by_key]
  | cons x xs ih =>
    rcases List.pairwise_cons.mp h with ⟨hx, hxs⟩
    exact insert_by_key_pairwise x (sort_by_key xs) (ih hxs)
      (fun y hy => hx y (mem_sort_by_key.mp hy))

/-- C7: for every stored set of alert records whose Mongo ids increase in
insertion order, every adjacent-or-later pair of the listing satisfies
ListingLe: every Active alert comes before every Resolved alert (the status
key of Active is 0 and of anything else 1, and ListingLe forbids a larger
status key before a smaller one), within equal status keys the severity rank
ascends (Critical, High, Moderate, Low, then any other severity string last,
per severity_order), and within equal status and severity rank the more
recently created document comes first. -/
theorem alerts_listing_order (store : List AlertDoc)
    (hmono : store.Pairwise (fun a b => a.oid < b.oid)) :
    (get_alerts store).Pairwise ListingLe := by
  unfold get_alerts
  apply sort_by_key_pairwise
  have hrev : (store.reverse).Pairwise (fun a b => b.oid < a.oid) := by
    rw [List.pairwise_reverse]
    exact hmono
  exact hrev.sublist (List.take_sublist _ _)

/-- C7 witness: the listing-order theorem applied to a concrete five-document
store with mixed statuses and severities. -/
theorem alerts_listing_order_witness :
    demo_store.Pairwise (fun a b => a.oid < b.oid)
    ∧ (get_alerts demo_store).Pairwise ListingLe :=
  ⟨by decide, alerts_listing_order demo_store (by decide)⟩

/-! ## Alert creation, id collision and resolve theorems (claims C8, C9, C10) -/

/-- C8: whenever one of the required fields type, severity, location, message
is missing or empty in a creation request, create_alert returns an error
naming a specific missing field (the first one in validation order) and
neither the alerts store nor the sms log changes: validation rejects before
any write. -/
theorem create_alert_validation (store : List AlertDoc) (smsLog : List SmsRecord)
    (gw : String → GwOutcome) (req : AlertReq) (year : Nat) (oid : Nat) (now : Int)
    (h : pyFalsy req.type = true ∨ pyFalsy req.severity = true
      ∨ pyFalsy req.location = true ∨ pyFalsy req.message = true) :
    ∃ f ∈ required_fields, pyFalsy (reqField req f) = true
      ∧ create_alert store smsLog gw req year oid now
          = (.error ("Missing field: " ++ f), store, smsLog) := by
  by_cases h1 : pyFalsy req.type = true
  · refine ⟨"type", by decide, by simpa [reqField] using h1, ?_⟩
    simp [create_alert, h1]
  · by_cases h2 : pyFalsy req.severity = true
    · refine ⟨"severity", by decide, by simpa [reqField] using h2, ?_⟩
      simp [create_alert, h1, h2]
    · by_cases h3 : pyFalsy req.location = true
      · refine ⟨"location", by decide, by simpa [reqField] using h3, ?_⟩
        simp [create_alert, h1, h2, h3]
      · by_cases h4 : pyFalsy req.message = true
        · refine ⟨"message", by decide, by simpa [reqField] using h4, ?_⟩
          simp [create_alert, h1, h2, h3, h4]
        · rcases h with h | h | h | h
          · exact absurd h h1
          · exact absurd h h2
          · exact absurd h h3
          · exact absurd h h4

/-- C8 witness: the validation theorem applied to a request missing its
location field. -/
theorem create_alert_validation_witness :
    (pyFalsy (⟨some "Flood", some "High", none, some "m", []⟩ : AlertReq).type = true
      ∨ pyFalsy (⟨some "Flood", some "High", none, some "m", []⟩ : AlertReq).severity = true
      ∨ pyFalsy (⟨some "Flood", some "High", none, some "m", []⟩ : AlertReq).location = true
      ∨ pyFalsy (⟨some "Flood", some "High", none, some "m", []⟩ : AlertReq).message = true)
    ∧ ∃ f ∈ required_fields,
        pyFalsy (reqField ⟨some "Flood", some "High", none, some "m", []⟩ f) = true
        ∧ create_alert [] [] gw_unused ⟨some "Flood", some "High", none, some "m", []⟩ 2026 1 0
            = (.error ("Missing field: " ++ f), [], []) :=
  ⟨by decide,
    create_alert_validation [] [] gw_unused ⟨some "Flood", some "High", none, some "m", []⟩
      2026 1 0 (by decide)⟩

/-- C9: alert ids are derived from the current document count, so they can
collide.  After creating two alerts (AL-2026-001, AL-2026-002), deleting the
first and creating a third, the third alert receives id AL-2026-002 while the
second alert still exists with the same id; the store then holds two documents
with id AL-2026-002, and id-based delete removes only one of them while
id-based resolve marks only one of them Resolved. -/
theorem alert_id_collision :
    (∃ a sms, c9_create4.1 = Except.ok (a, sms) ∧ a.id = "AL-2026-002")
    ∧ (∃ b ∈ c9_s3, b.id = "AL-2026-002")
    ∧ (c9_s4.countP (fun a => a.id == "AL-2026-002")) = 2
    ∧ ((delete_alert c9_s4 "AL-2026-002").2.countP (fun a => a.id == "AL-2026-002")) = 1
    ∧ ((resolve_alert c9_s4 "AL-2026-002" 10).2.countP
        (fun a => a.id == "AL-2026-002" && a.status == "Resolved")) = 1
    ∧ ((resolve_alert c9_s4 "AL-2026-002" 10).2.countP
        (fun a => a.id == "AL-2026-002" && a.status == "Active")) = 1 := by
  refine ⟨⟨_, _, rfl, rfl⟩, by decide, by decide, by decide, by decide, by decide⟩

theorem resolve_update_find (store : List AlertDoc) (alert_id : String) (now : Int)
    (h : store.any (fun a => a.id = alert_id) = true) :
    ∃ a0, store.find? (fun a => a.id == alert_id) = some a0
      ∧ (resolve_update alert_id now store).find? (fun a => a.id == alert_id)
          = some { a0 with status := "Resolved", resolved_at := some now } := by
  induction store with
  | nil => simp at h
  | cons a rest ih =>
    by_cases ha : a.id = alert_id
    · have hbeq : (a.id == alert_id) = true := by simpa using ha
      refine ⟨a, ?_, ?_⟩
      · simp [List.find?, hbeq]
      · simp only [resolve_update, if_pos ha]
        simp [List.find?, hbeq]
    · have hbeq : (a.id == alert_id) = false := by simpa using ha
      have h2 : rest.any (fun a => a.id = alert_id) = true := by
        simp only [List.any_cons, decide_eq_true_eq] at h
        rcases Bool.or_eq_true_iff.mp h with hx | hx
        · exact absurd (of_decide_eq_true hx) ha
        · exact hx
      obtain ⟨a0, hf, hf2⟩ := ih h2
      refine ⟨a0, ?_, ?_⟩
      · simp only [List.find?, hbeq]
        exact hf
      · simp only [resolve_update, if_neg ha]
        simp only [List.find?, hbeq]
        exact hf2

/-- C10: resolving an existing alert id always succeeds, whatever the current
status of the matching document: the response is success and the first
document matching the id afterwards has status Resolved and resolved_at equal
to the new resolution time, overwriting any earlier resolved_at.  In
particular resolving an already-Resolved alert is not rejected. -/
theorem resolve_always_succeeds (store : List AlertDoc) (alert_id : String) (now : Int)
    (h : ∃ a ∈ store, a.id = alert_id) :
    (resolve_alert store alert_id now).1 = ResolveResult.success alert_id
    ∧ ∃ a0, store.find? (fun a => a.id == alert_id) = some a0
        ∧ (resolve_alert store alert_id now).2.find? (fun a => a.id == alert_id)
            = some { a0 with status := "Resolved", resolved_at := some now } := by
  have hany : store.any (fun a => a.id = alert_id) = true := by
    rcases h with ⟨a, ha, hid⟩
    simp only [List.any_eq_true, decide_eq_true_eq]
    exact ⟨a, ha, hid⟩
  constructor
  · simp [resolve_alert, hany]
  · obtain ⟨a0, hf, hf2⟩ := resolve_update_find store alert_id now hany
    refine ⟨a0, hf, ?_⟩
    simp only [resolve_alert, hany, if_true]
    exact hf2

/-- C10 witness: the theorem applied to a store whose only document is already
Resolved with resolved_at 5; resolving again at time 9 succeeds and overwrites
resolved_at with 9. -/
theorem resolve_always_succeeds_witness :
    (∃ a ∈ resolved_store, a.id = "AL-2026-001")
    ∧ ((resolve_alert resolved_store "AL-2026-001" 9).1
        = ResolveResult.success "AL-2026-001"
      ∧ ∃ a0, resolved_store.find? (fun a => a.id == "AL-2026-001") = some a0
          ∧ (resolve_alert resolved_store "AL-2026-001" 9).2.find?
              (fun a => a.id == "AL-2026-001")
              = some { a0 with status := "Resolved", resolved_at := some 9 }) :=
  ⟨by decide, resolve_always_succeeds resolved_store "AL-2026-001" 9 (by decide)⟩
